import Mathlib

/-!
Verification of the SigDigger panoramic-spectrum / spectrum-mediator core.

This file gives a shallow embedding of the relevant code of
`src/UIMediator/SpectrumMediator.cpp` and `src/Components/PanoramicDialog.cpp`
and proves (or refutes) the behavioural claims of the specification against it.

Modelling conventions:
* C++ integral types (`qint64`, `quint64`) are modelled as `Int`; quantities
  that the program keeps integral (frequencies in Hz, microsecond time values)
  are modelled exactly.  C++ integer division truncates towards zero, so it is
  embedded as `Int.tdiv` (the T-division of Lean).
* `struct timeval` arithmetic (`timersub`, `timercmp`) is exact integer
  arithmetic on microsecond counts, embedded as `Int` arithmetic.
* The single floating-point comparison of the core
  (`max - min <= minBwForZoom * getRelBw()`, line 1031) is embedded with an
  exact model of IEEE-754 single precision: every operand is rounded to a
  24-bit significand (round-to-nearest, ties-to-even, unbounded exponent —
  which agrees with binary32 on the whole normal range), and the division,
  product and comparison follow the C++ `float` semantics.
* Qt widgets are modelled by the state the code reads and writes through them:
  a `QDoubleSpinBox` is a clamping value holder, the waterfall widget is a
  record of the attributes the dialog sets on it.  Emitted Qt signals are
  returned as explicit event lists.
-/

namespace SigDigger

/-! ## Spectrum mediator: PSD staleness filter (`UIMediator::feedPSD`) -/

/-- Configuration read by `UIMediator::feedPSD`: `guiConfig.enableMsgTTL` and
`guiConfig.msgTTL` (milliseconds). -/
structure GuiTTLConfig where
  enableMsgTTL : Bool
  msgTTL : Int
deriving DecidableEq

/-- The mediator state mutated by `feedPSD`: `haveRtDelta` and `rtDelta`
(modelled in microseconds, the resolution of `struct timeval`). -/
structure RtDeltaState where
  haveRtDelta : Bool
  rtDelta : Int
deriving DecidableEq

/-- The fields of `Suscan::PSDMessage` read by `feedPSD`.  The capture
timestamp `realTimeStampUs` is in microseconds of the receiver clock. -/
structure PSDMessage where
  realTimeStampUs : Int
  sampleRate : Int
  measuredSampleRate : Int
deriving DecidableEq

/-- The externally observable effects of one `feedPSD` call: which rate
setters ran and whether the averager and the spectrum display were fed. -/
structure FeedEffects where
  sampleRateSet : Option Int
  processRateSet : Option Int
  averagerFed : Bool
  spectrumFed : Bool
deriving DecidableEq

/-- The `timersub`/`timercmp` based max-delta computation of `feedPSD`:
`max_delta.tv_sec = msgTTL / 1000`, `max_delta.tv_usec = (msgTTL % 1000) * 1000`,
expressed as a single microsecond count. -/
def maxDeltaUs (cfg : GuiTTLConfig) : Int :=
  Int.tdiv cfg.msgTTL 1000 * 1000000 + Int.tmod cfg.msgTTL 1000 * 1000

/-- Shallow embedding of `UIMediator::feedPSD` (SpectrumMediator.cpp, lines
30–76).  `nowUs` is the value `gettimeofday` returns at this call.  Returns
the updated mediator state together with the effects of the call. -/
def feedPSD (cfg : GuiTTLConfig) (st : RtDeltaState) (nowUs : Int)
    (msg : PSDMessage) : RtDeltaState × FeedEffects :=
  let stAndExpired : RtDeltaState × Bool :=
    if cfg.enableMsgTTL then
      let diff := nowUs - msg.realTimeStampUs
      if ¬st.haveRtDelta then
        (⟨true, diff⟩, false)
      else
        let rtDelta := if st.rtDelta > diff then diff else st.rtDelta
        let excess := diff - rtDelta
        (⟨true, rtDelta⟩, excess > maxDeltaUs cfg)
    else
      (st, false)
  let st := stAndExpired.1
  let expired := stAndExpired.2
  (st,
   { sampleRateSet := some msg.sampleRate
     processRateSet := if expired then none else some msg.measuredSampleRate
     averagerFed := ¬expired
     spectrumFed := ¬expired })

/-- Run `feedPSD` over a list of `(now, message)` pairs, collecting the
per-frame acceptance flags (a frame is accepted when it is fed to the
spectrum display). -/
def runFeed (cfg : GuiTTLConfig) : RtDeltaState → List (Int × PSDMessage) →
    RtDeltaState × List Bool
  | st, [] => (st, [])
  | st, (now, m) :: rest =>
    let r := feedPSD cfg st now m
    let rest2 := runFeed cfg r.1 rest
    (rest2.1, r.2.spectrumFed :: rest2.2)

/-! ## Panoramic dialog configuration: gain map -/

/-- The field `PanoramicDialogConfig::gains`: a `std::map<std::string, SUFLOAT>`,
modelled extensionally as a partial map from key strings to values. -/
structure PanoramicDialogConfig where
  gains : String → Option ℚ

/-- Key construction shared by `hasGain`/`getGain`/`setGain`:
`"gain." + dev + "." + name`. -/
def gainKey (dev name : String) : String :=
  "gain." ++ dev ++ "." ++ name

/-- Shallow embedding of `PanoramicDialogConfig::hasGain`. -/
def PanoramicDialogConfig.hasGain (c : PanoramicDialogConfig)
    (dev name : String) : Bool :=
  (c.gains (gainKey dev name)).isSome

/-- Shallow embedding of `PanoramicDialogConfig::getGain`: returns `0` when
the key is absent, else the stored value. -/
def PanoramicDialogConfig.getGain (c : PanoramicDialogConfig)
    (dev name : String) : ℚ :=
  match c.gains (gainKey dev name) with
  | none => 0
  | some v => v

/-- Shallow embedding of `PanoramicDialogConfig::setGain`: stores the value
under the constructed key. -/
def PanoramicDialogConfig.setGain (c : PanoramicDialogConfig)
    (dev name : String) (val : ℚ) : PanoramicDialogConfig :=
  ⟨fun k => if k = gainKey dev name then some val else c.gains k⟩

/-! ## Single-precision float model

The mode-switch comparison of `onNewZoomLevel` (PanoramicDialog.cpp, line
1031) is evaluated by the program in IEEE-754 single precision:
`getRelBw()` returns `float`, the `quint64` bandwidth and the `qint64`
width are converted to `float`, and the product is a `float`
multiplication.  The model below represents a binary32 value exactly as
`m * 2^e` with a 24-bit significand and rounds with round-to-nearest,
ties-to-even; the exponent is unbounded, so the model agrees with binary32
on the whole normal range (no value the dialog handles approaches overflow
or subnormals). -/

/-- Power `2 ^ k` by structural recursion (kernel-reducible). -/
def pow2 : Nat → Nat
  | 0 => 1
  | k + 1 => 2 * pow2 k

/-- Binary digit count of `n` (for `n ≥ 1`); fuel-guarded structural
recursion. -/
def bitsLen : Nat → Nat → Nat
  | 0, _ => 0
  | fuel + 1, n => if n < 2 then 1 else bitsLen fuel (n / 2) + 1

/-- Round-to-nearest, ties-to-even of the fraction `u / v` (`v > 0`). -/
def rnEven (u v : Nat) : Nat :=
  let q := u / v
  let r := u % v
  if 2 * r < v then q
  else if v < 2 * r then q + 1
  else if q % 2 = 0 then q else q + 1

/-- Whether `n / d ≥ 2 ^ e` for positive naturals `n, d` and an integer
exponent `e`. -/
def ratGePow2 (n d : Nat) (e : Int) : Bool :=
  if 0 ≤ e then d * pow2 e.toNat ≤ n else d ≤ n * pow2 (-e).toNat

/-- The binary exponent of the positive rational `n / d`: the `e` with
`2^e ≤ n/d < 2^(e+1)`, computed from the bit lengths of `n` and `d`. -/
def ratExp2 (n d : Nat) : Int :=
  let e0 : Int := (bitsLen n n : Int) - (bitsLen d d : Int)
  if ratGePow2 n d e0 then e0 else e0 - 1

/-- A binary floating-point value `m * 2^e`.  Results of `roundFloat` are
normalized: `|m| ∈ [2^23, 2^24)`, or `m = 0`. -/
structure FloatVal where
  m : Int
  e : Int
deriving DecidableEq

/-- The exact rational value of a float. -/
def FloatVal.val (f : FloatVal) : ℚ :=
  (f.m : ℚ) * (2 : ℚ) ^ f.e

/-- Round the positive rational `n / d` to a 24-bit significand,
round-to-nearest ties-to-even. -/
def roundFloatPos (n d : Nat) : FloatVal :=
  let e := ratExp2 n d
  let m0 :=
    if e ≤ 23 then rnEven (n * pow2 (23 - e).toNat) d
    else rnEven n (d * pow2 (e - 23).toNat)
  if m0 = pow2 24 then ⟨(pow2 23 : Nat), e - 22⟩ else ⟨(m0 : Nat), e - 23⟩

/-- Round the rational `n / d` (`d > 0`) to the nearest binary32 value. -/
def roundFloat (n : Int) (d : Nat) : FloatVal :=
  if n = 0 then ⟨0, 0⟩
  else
    let f := roundFloatPos n.natAbs d
    if n < 0 then ⟨-f.m, f.e⟩ else f

/-- The `float` a C++ integer-to-float conversion produces
(round-to-nearest, ties-to-even). -/
def floatOfInt (n : Int) : FloatVal :=
  roundFloat n 1

/-- Binary32 multiplication: round the exact product. -/
def fmul (a b : FloatVal) : FloatVal :=
  let k := a.e + b.e
  if 0 ≤ k then roundFloat (a.m * b.m * (pow2 k.toNat : Int)) 1
  else roundFloat (a.m * b.m) (pow2 (-k).toNat)

/-- Binary32 division: round the exact quotient. -/
def fdiv (a b : FloatVal) : FloatVal :=
  let k := a.e - b.e
  let n : Int := if 0 ≤ k then a.m * (pow2 k.toNat : Int) else a.m
  let d : Int := if 0 ≤ k then b.m else b.m * (pow2 (-k).toNat : Int)
  roundFloat (if d < 0 then -n else n) d.natAbs

/-- The exact `<=` comparison on float values (float comparison is exact on
the held values). -/
def fle (a b : FloatVal) : Bool :=
  if a.e ≤ b.e then decide (a.m ≤ b.m * (pow2 (b.e - a.e).toNat : Int))
  else decide (a.m * (pow2 (a.e - b.e).toNat : Int) ≤ b.m)

/-! ## Panoramic dialog: widget state model -/

/-- A `QDoubleSpinBox` holding integral frequency values: Qt clamps every
`setValue` into `[lo, hi]`; `setMinimum`/`setMaximum` adjust the bounds and
re-clamp the held value. -/
structure SpinBox where
  lo : Int
  hi : Int
  val : Int
deriving DecidableEq

/-- Qt `setValue`: the stored value is the argument clamped into the bounds. -/
def SpinBox.setValue (s : SpinBox) (v : Int) : SpinBox :=
  { s with val := max s.lo (min s.hi v) }

/-- Qt `setMinimum`: raises `hi` when needed and re-clamps the value. -/
def SpinBox.setMinimum (s : SpinBox) (l : Int) : SpinBox :=
  let hi := max s.hi l
  { lo := l, hi := hi, val := max l (min hi s.val) }

/-- Qt `setMaximum`: lowers `lo` when needed and re-clamps the value. -/
def SpinBox.setMaximum (s : SpinBox) (h : Int) : SpinBox :=
  let lo := min s.lo h
  { lo := lo, hi := h, val := max lo (min h s.val) }

/-- The waterfall widget attributes read/written by `PanoramicDialog`.
`horizZoomResets` counts `resetHorizontalZoom` calls so that "no
reconfiguration happened" is an observable statement. -/
structure Waterfall where
  centerFreq : Int
  fftCenterFreq : Int
  spanFreq : Int
  sampleRate : Int
  locked : Bool
  lowCut : Int
  highCut : Int
  demodRanges : Int × Int × Int × Int × Bool
  horizZoomResets : Nat
  freqUnits : Int
  runningState : Bool
deriving DecidableEq

/-- The `PanoramicDialog` state the reconciliation logic reads and writes. -/
structure PanDialog where
  wf : Waterfall
  rangeStartSpin : SpinBox
  rangeEndSpin : SpinBox
  fullRangeCheck : Bool
  lnbValue : Int
  adjustingRange : Bool
  fixedFreqMode : Bool
  currBw : Int
  minBwForZoom : Int
  relBwSliderValue : Int
  bannedDevice : String
  selectedDeviceDesc : String
  scanButtonChecked : Bool
  scanButtonText : String
deriving DecidableEq

/-- Qt signals emitted by the dialog, collected as explicit events. -/
inductive PanEvent where
  | detailChanged (lo hi : Int) (fixedFreq : Bool)
  | startScan
  | stopScan
  | errorBox (title msg : String)
deriving DecidableEq

/-- The exact rational value of `PanoramicDialog::getRelBw`
(`relBwSlider->value() / 100.f`), used in specification-level statements;
the program's single-precision evaluation of it is `PanDialog.relBwF`. -/
def PanDialog.getRelBw (s : PanDialog) : ℚ :=
  (s.relBwSliderValue : ℚ) / 100

/-- Embedding of `PanoramicDialog::getRelBw` as the program evaluates it:
`relBwSlider->value() / 100.f`, an exact int-to-float conversion followed by
a single-precision division. -/
def PanDialog.relBwF (s : PanDialog) : FloatVal :=
  fdiv (floatOfInt s.relBwSliderValue) (floatOfInt 100)

/-- The float threshold of line 1031: `minBwForZoom * getRelBw()` — the
`quint64` bandwidth converted to `float` and multiplied by `getRelBw()` in
single precision. -/
def PanDialog.zoomThresholdF (s : PanDialog) : FloatVal :=
  fmul (floatOfInt s.minBwForZoom) s.relBwF

/-- Embedding of `PanoramicDialog::getMinFreq`: the range-start spin value. -/
def PanDialog.getMinFreq (s : PanDialog) : Int :=
  s.rangeStartSpin.val

/-- Embedding of `PanoramicDialog::getMaxFreq`: the range-end spin value. -/
def PanDialog.getMaxFreq (s : PanDialog) : Int :=
  s.rangeEndSpin.val

/-- Shallow embedding of `PanoramicDialog::setWfRange` (PanoramicDialog.cpp,
lines 418–464).  In fixed-frequency mode only the sample rate may be
reconfigured (to `minBwForZoom`); otherwise the center frequency is always
set and the bandwidth-dependent reconfiguration runs iff the width differs
from `currBw`. -/
def PanDialog.setWfRange (s : PanDialog) (freqStart freqEnd : Int) : PanDialog :=
  if s.fixedFreqMode then
    let bw := s.minBwForZoom
    if bw ≠ s.currBw then
      { s with wf := { s.wf with sampleRate := bw }, currBw := bw }
    else
      s
  else
    let fc := Int.tdiv (freqEnd + freqStart) 2
    let bw := freqEnd - freqStart
    let s' := { s with wf := { s.wf with centerFreq := fc } }
    if bw ≠ s'.currBw then
      let demodBw0 := Int.tdiv bw 10
      let demodBw := if demodBw0 > 4000000000 then 4000000000 else demodBw0
      { s' with
        wf := { s'.wf with
                locked := false
                sampleRate := bw
                demodRanges := (Int.tdiv (-bw) 2, 0, 0, Int.tdiv bw 2, true)
                lowCut := Int.tdiv (-demodBw) 2
                highCut := Int.tdiv demodBw 2
                horizZoomResets := s'.wf.horizZoomResets + 1 }
        currBw := bw }
    else
      s'

/-- Result of the window-clamping steps of `onNewZoomLevel`. -/
structure ClampResult where
  lo : Int
  hi : Int
  adjLeft : Bool
  adjRight : Bool
deriving DecidableEq

/-- The clamping steps of `PanoramicDialog::onNewZoomLevel` (lines
1004–1026): reinject overflow on one side to the other, then hard-clamp
each side. -/
def clampZoomWindow (minF maxF mn mx : Int) : ClampResult :=
  let r :=
    if mn < minF ∧ mx ≤ maxF then
      let extra := minF - mn
      ClampResult.mk (mn + extra) (mx + extra) true true
    else if mn ≥ minF ∧ mx > maxF then
      let extra := mx - maxF
      ClampResult.mk (mn - extra) (mx - extra) true true
    else
      ClampResult.mk mn mx false false
  let r := if r.lo < minF then { r with lo := minF, adjLeft := true } else r
  if r.hi > maxF then { r with hi := maxF, adjRight := true } else r

/-- The mode decision of `onNewZoomLevel` (line 1031):
`max - min <= minBwForZoom * getRelBw()`, evaluated as the program does in
IEEE single precision: the `qint64` width converts to `float`
(round-to-nearest, ties-to-even) and is compared against the
single-precision threshold `float(minBwForZoom) * getRelBw()`. -/
def PanDialog.zoomFixedDecision (s : PanDialog) (w : Int) : Bool :=
  fle (floatOfInt w) s.zoomThresholdF

/-- Shallow embedding of `PanoramicDialog::onNewZoomLevel` (lines 987–1044).
Returns the updated state and the emitted signals.  The body runs only when
the `adjustingRange` re-entrancy guard is clear; the guard is set for the
duration of the body and `detailChanged` is emitted unconditionally at its
end. -/
def PanDialog.onNewZoomLevel (s : PanDialog) : PanDialog × List PanEvent :=
  if s.adjustingRange then
    (s, [])
  else
    let s := { s with adjustingRange := true }
    let fc := s.wf.centerFreq + s.wf.fftCenterFreq
    let span := s.wf.spanFreq
    let mn := fc - Int.tdiv span 2
    let mx := fc + Int.tdiv span 2
    let c := clampZoomWindow s.getMinFreq s.getMaxFreq mn mx
    let s :=
      if c.adjLeft ∧ c.adjRight then
        { s with wf := { s.wf with horizZoomResets := s.wf.horizZoomResets + 1 } }
      else
        s
    let fixed := s.zoomFixedDecision (c.hi - c.lo)
    let s := { s with fixedFreqMode := fixed }
    let win :=
      if fixed then
        let fc' := s.wf.centerFreq
        (fc' - Int.tdiv span 2, fc' + Int.tdiv span 2)
      else
        (c.lo, c.hi)
    let s := s.setWfRange win.1 win.2
    let s := { s with adjustingRange := false }
    (s, [PanEvent.detailChanged win.1 win.2 fixed])

/-- Shallow embedding of `PanoramicDialog::onNewCenterFreq` (lines
1066–1097): pan at fixed width `currBw`, sliding the window back inside the
configured range when it hits one border.  `detailChanged` is emitted
unconditionally. -/
def PanDialog.onNewCenterFreq (s : PanDialog) (freq : Int) :
    PanDialog × List PanEvent :=
  let span := s.currBw
  let mn0 := freq - Int.tdiv span 2
  let mx0 := freq + Int.tdiv span 2
  let leftBorder := decide (mn0 ≤ s.getMinFreq)
  let mn := if leftBorder then s.getMinFreq else mn0
  let rightBorder := decide (mx0 ≥ s.getMaxFreq)
  let mx := if rightBorder then s.getMaxFreq else mx0
  let res :=
    if leftBorder ∨ rightBorder then
      let win :=
        if leftBorder ∧ ¬rightBorder then (mn, mn + span)
        else if rightBorder ∧ ¬leftBorder then (mx - span, mx)
        else (mn, mx)
      ({ s with wf := { s.wf with centerFreq := Int.tdiv (win.2 + win.1) 2 } },
       win)
    else
      (s, (mn, mx))
  (res.1, [PanEvent.detailChanged res.2.1 res.2.2 s.fixedFreqMode])

/-- Embedding of `PanoramicDialog::getFrequencyUnits` (lines 600–616). -/
def getFrequencyUnits (freq : Int) : Int :=
  let f := if freq < 0 then -freq else freq
  if f < 1000 then 1
  else if f < 1000000 then 1000
  else if f < 1000000000 then 1000000
  else 1000000000

/-- Shallow embedding of `PanoramicDialog::adjustRanges` (lines 569–591):
swap the two range spins when inverted, then push units, span and center to
the waterfall (computed from the pre-swap values, as in the source). -/
def PanDialog.adjustRanges (s : PanDialog) : PanDialog :=
  let minFreq := s.rangeStartSpin.val
  let maxFreq := s.rangeEndSpin.val
  let s :=
    if s.rangeStartSpin.val > s.rangeEndSpin.val then
      let v := s.rangeStartSpin.val
      let s := { s with rangeStartSpin := s.rangeStartSpin.setValue s.rangeEndSpin.val }
      { s with rangeEndSpin := s.rangeEndSpin.setValue v }
    else
      s
  { s with wf := { s.wf with
      freqUnits := getFrequencyUnits maxFreq
      spanFreq := maxFreq - minFreq
      centerFreq := Int.tdiv (maxFreq + minFreq) 2 } }

/-- Embedding of `PanoramicDialog::invalidRange` (lines 593–598): the two spins differ by
less than 1 Hz (on integral values: are equal). -/
def PanDialog.invalidRange (s : PanDialog) : Bool :=
  decide ((s.rangeEndSpin.val - s.rangeStartSpin.val).natAbs < 1)

/-- Shallow embedding of `PanoramicDialog::setRanges` (lines 619–638): set
the spin bounds to the LNB-shifted device bounds, reset to the full span when
the range is degenerate or full-range mode is on, then `adjustRanges`. -/
def PanDialog.setRanges (s : PanDialog) (devMinFreq devMaxFreq : Int) : PanDialog :=
  let minFreq := devMinFreq + s.lnbValue
  let maxFreq := devMaxFreq + s.lnbValue
  let s := { s with
    rangeStartSpin := (s.rangeStartSpin.setMinimum minFreq).setMaximum maxFreq
    rangeEndSpin := (s.rangeEndSpin.setMinimum minFreq).setMaximum maxFreq }
  let s :=
    if s.invalidRange ∨ s.fullRangeCheck then
      { s with
        rangeStartSpin := s.rangeStartSpin.setValue minFreq
        rangeEndSpin := s.rangeEndSpin.setValue maxFreq }
    else
      s
  s.adjustRanges

/-- The range-edit path behind the spec's `FrequencyRangeModel.setRange`:
writing the two range spin boxes (each `QDoubleSpinBox::setValue` clamps into
the device bounds held by the spin) fires `onFreqRangeChanged`, which runs
`adjustRanges` (swap when inverted). -/
def PanDialog.setRange (s : PanDialog) (a b : Int) : PanDialog :=
  PanDialog.adjustRanges
    { s with
      rangeStartSpin := s.rangeStartSpin.setValue a
      rangeEndSpin := s.rangeEndSpin.setValue b }

/-- Shallow embedding of `PanoramicDialog::onToggleScan` (lines 957–985):
refuse to start when the selected device is the banned device (error box, no
`start`), otherwise emit `start`/`stop`; then mirror the button state on the
waterfall and the button text. -/
def PanDialog.onToggleScan (s : PanDialog) : PanDialog × List PanEvent :=
  let r :=
    if s.scanButtonChecked then
      if s.bannedDevice.length > 0 ∧ s.selectedDeviceDesc = s.bannedDevice then
        ({ s with scanButtonChecked := false },
         [PanEvent.errorBox "Panoramic spectrum error error"
            "Scan cannot start because the selected device is in use by the main window."])
      else
        (s, [PanEvent.startScan])
    else
      (s, [PanEvent.stopScan])
  let s := r.1
  let s := { s with
    wf := { s.wf with runningState := s.scanButtonChecked }
    scanButtonText := if s.scanButtonChecked then "Stop" else "Start scan" }
  (s, r.2)

/-! ## SavedSpectrum and file export -/

/-- Drop the trailing `'0'` characters of a digit list. -/
def stripTrailingZeros (cs : List Char) : List Char :=
  (cs.reverse.dropWhile (fun c => c = '0')).reverse

/-- Power `10 ^ k` by structural recursion (kernel-reducible). -/
def pow10 : Nat → Nat
  | 0 => 1
  | k + 1 => 10 * pow10 k

/-- Decimal digit count of `n` (for `n ≥ 1`); `fuel`-guarded structural
recursion so that the kernel can evaluate it. -/
def digitsLen : Nat → Nat → Nat
  | 0, _ => 0
  | fuel + 1, n => if n < 10 then 1 else digitsLen fuel (n / 10) + 1

/-- The decimal digit characters of `n`, most significant first. -/
def natDigitChars : Nat → Nat → List Char
  | 0, _ => []
  | fuel + 1, n =>
    if n < 10 then [Char.ofNat (48 + n)]
    else natDigitChars fuel (n / 10) ++ [Char.ofNat (48 + n % 10)]

/-- Round-half-up of the fraction `a / b` (`b > 0`), as used by decimal
printing. -/
def roundDiv (a b : Nat) : Nat :=
  (2 * a + b) / (2 * b)

/-- Whether `n / d ≥ 10 ^ e` for positive naturals `n, d` and an integer
exponent `e`. -/
def ratGePow10 (n d : Nat) (e : Int) : Bool :=
  if 0 ≤ e then d * pow10 e.toNat ≤ n else d ≤ n * pow10 (-e).toNat

/-- The decimal exponent of the positive rational `n / d`: the `e` with
`10^e ≤ n/d < 10^(e+1)`, computed from the digit counts of `n` and `d`. -/
def ratExp10 (n d : Nat) : Int :=
  let e0 : Int := (digitsLen n n : Int) - (digitsLen d d : Int)
  if ratGePow10 n d e0 then e0 else e0 - 1

/-- Format the positive rational `|q|` the way `std::ostream` prints a
`float` under `setprecision(std::numeric_limits<float>::digits10) = 6` in
the default float format: round to 6 significant decimal digits, use
scientific notation when the decimal exponent is below -4 or at least 6,
and strip trailing zeros of the fraction.  Implemented on
numerator/denominator so the kernel can evaluate it. -/
def fmtPosQ6 (q : ℚ) : String :=
  let n := q.num.natAbs
  let d := q.den
  let e0 := ratExp10 n d
  let m0 :=
    if e0 ≤ 5 then roundDiv (n * pow10 (5 - e0).toNat) d
    else roundDiv n (d * pow10 (e0 - 5).toNat)
  let me := if m0 = 1000000 then (100000, e0 + 1) else (m0, e0)
  let m := me.1
  let e := me.2
  let ds := natDigitChars m m
  if e < -4 ∨ 6 ≤ e then
    let tail := stripTrailingZeros (ds.drop 1)
    let mantissa :=
      String.mk (ds.take 1) ++ (if tail.isEmpty then "" else "." ++ String.mk tail)
    let sign := if e < 0 then "-" else "+"
    let a := e.natAbs
    mantissa ++ "e" ++ sign ++ (if a < 10 then "0" else "") ++
      String.mk (natDigitChars a a)
  else if 0 ≤ e then
    let ip := ds.take (e.toNat + 1)
    let fp := stripTrailingZeros (ds.drop (e.toNat + 1))
    String.mk ip ++ (if fp.isEmpty then "" else "." ++ String.mk fp)
  else
    "0." ++ String.mk (List.replicate (e.natAbs - 1) '0') ++
      String.mk (stripTrailingZeros ds)

/-- The `std::ostream` float output at precision 6 (default format), for any
sign. -/
def fmtFloat6 (q : ℚ) : String :=
  if q.num = 0 then "0"
  else (if q.num < 0 then "-" else "") ++ fmtPosQ6 q

/-- Count of significant decimal digits in a printed number: the digit
characters after discarding leading zeros. -/
def sigDecimalDigits (s : String) : Nat :=
  ((s.data.filter Char.isDigit).dropWhile (fun c => c = '0')).length

/-- A `std::ofstream`: an open flag and the text written so far. -/
structure OFStream where
  isOpen : Bool
  contents : String
deriving DecidableEq

/-- Stream `operator<<`: append text to the stream. -/
def OFStream.write (f : OFStream) (s : String) : OFStream :=
  { f with contents := f.contents ++ s }

/-- The `SavedSpectrum` data holder: frequency bounds and the PSD samples. -/
structure SavedSpectrum where
  start : Int
  end_ : Int
  data : List ℚ
deriving DecidableEq

/-- Shallow embedding of `SavedSpectrum::exportToFile` (PanoramicDialog.cpp,
lines 42–66).  `canOpen` says whether opening the destination path succeeds.
Returns the boolean result of the function and the stream it wrote. -/
def SavedSpectrum.exportToFile (sp : SavedSpectrum) (canOpen : Bool) :
    Bool × OFStream :=
  let of := OFStream.mk canOpen ""
  if ¬of.isOpen then
    (false, of)
  else
    let of := of.write "%\n"
    let of := of.write "% Panoramic Spectrum file generated by SigDigger\n"
    let of := of.write "%\n\n"
    let of := of.write ("freqMin = " ++ toString sp.start ++ ";\n")
    let of := of.write ("freqMax = " ++ toString sp.end_ ++ ";\n")
    let of := of.write "PSD = [ "
    let of := sp.data.foldl (fun f p => f.write (fmtFloat6 p ++ " ")) of
    let of := of.write "];\n"
    (true, of)

/-! ## Concrete states used by the claim instances -/

/-- A quiescent waterfall, fields overridden per scenario. -/
def baseWf : Waterfall :=
  { centerFreq := 0, fftCenterFreq := 0, spanFreq := 0, sampleRate := 0,
    locked := true, lowCut := 0, highCut := 0,
    demodRanges := (0, 0, 0, 0, false), horizZoomResets := 0,
    freqUnits := 1, runningState := false }

/-- A quiescent dialog state, fields overridden per scenario. -/
def basePan : PanDialog :=
  { wf := baseWf, rangeStartSpin := ⟨0, 0, 0⟩, rangeEndSpin := ⟨0, 0, 0⟩,
    fullRangeCheck := false, lnbValue := 0, adjustingRange := false,
    fixedFreqMode := false, currBw := 0, minBwForZoom := 0,
    relBwSliderValue := 100, bannedDevice := "", selectedDeviceDesc := "",
    scanButtonChecked := false, scanButtonText := "Start scan" }

/-- The specification's staleness-filter test sequence: observed delays
100 ms, 80 ms, 150 ms, 90 ms (microsecond timestamps). -/
def c2Frames : List (Int × PSDMessage) :=
  [(1000000, ⟨900000, 20000000, 19990000⟩),
   (2000000, ⟨1920000, 20000000, 19990000⟩),
   (3000000, ⟨2850000, 20000000, 19990000⟩),
   (4000000, ⟨3910000, 20000000, 19990000⟩)]

/-- An initially empty gain map. -/
def emptyGainConfig : PanoramicDialogConfig :=
  ⟨fun _ => none⟩

/-- A dialog state with the selected device banned, used as C9's witness. -/
def bannedScanState : PanDialog :=
  { basePan with
    scanButtonChecked := true
    bannedDevice := "RTL-SDR /dev/rtl0"
    selectedDeviceDesc := "RTL-SDR /dev/rtl0" }

/-- The raw zoom window of `onNewZoomLevel` before clamping:
`fc ± span/2` around `getCenterFreq() + getFftCenterFreq()`. -/
def PanDialog.zoomRawWindow (s : PanDialog) : Int × Int :=
  (s.wf.centerFreq + s.wf.fftCenterFreq - Int.tdiv s.wf.spanFreq 2,
   s.wf.centerFreq + s.wf.fftCenterFreq + Int.tdiv s.wf.spanFreq 2)

/-- The clamped zoom window of `onNewZoomLevel`: the raw window pushed back
into the configured range. -/
def PanDialog.zoomClamped (s : PanDialog) : ClampResult :=
  clampZoomWindow s.getMinFreq s.getMaxFreq s.zoomRawWindow.1 s.zoomRawWindow.2

/-- Sweep-mode state used to refute the idempotence claim: range
[0, 1000000], window [300000, 700000] already inside bounds, `currBw`
matching the window width. -/
def c1State : PanDialog :=
  { basePan with
    wf := { baseWf with centerFreq := 500000, spanFreq := 400000, sampleRate := 400000 }
    rangeStartSpin := ⟨0, 1000000, 0⟩
    rangeEndSpin := ⟨0, 1000000, 1000000⟩
    currBw := 400000
    minBwForZoom := 100000 }

/-- State entering fixed-frequency mode on a zoom: gesture span 50000 Hz,
`minBwForZoom` 100000 Hz, relative-bandwidth slider at 100%. -/
def c3State : PanDialog :=
  { basePan with
    wf := { baseWf with centerFreq := 500000000, spanFreq := 50000 }
    rangeStartSpin := ⟨0, 1000000000, 0⟩
    rangeEndSpin := ⟨0, 1000000000, 1000000000⟩
    currBw := 50000
    minBwForZoom := 100000 }

/-- Boundary state for the mode-switch rule: the clamped width comes out
exactly equal to the threshold `minBwForZoom × relBw = 50000 × 100%`. -/
def c6EqState : PanDialog :=
  { basePan with
    wf := { baseWf with centerFreq := 25000, spanFreq := 200000 }
    rangeStartSpin := ⟨0, 50000, 0⟩
    rangeEndSpin := ⟨0, 50000, 50000⟩
    currBw := 1
    minBwForZoom := 50000 }

/-- Boundary state for the mode-switch rule: the clamped width comes out
one Hz above the threshold 50000. -/
def c6AboveState : PanDialog :=
  { basePan with
    wf := { baseWf with centerFreq := 25000, spanFreq := 200000 }
    rangeStartSpin := ⟨0, 50001, 0⟩
    rangeEndSpin := ⟨0, 50001, 50001⟩
    currBw := 1
    minBwForZoom := 50000 }

/-- State exhibiting the single-precision boundary failure of the mode
switch: range [0, 20000001] (so the gesture span clamps to a width of
20000001), `minBwForZoom` 20 Msps and the relative-bandwidth slider at
100%, making the float threshold exactly 20000000.0f. -/
def c6FloatState : PanDialog :=
  { basePan with
    wf := { baseWf with centerFreq := 10000000, spanFreq := 200000000 }
    rangeStartSpin := ⟨0, 20000001, 0⟩
    rangeEndSpin := ⟨0, 20000001, 20000001⟩
    currBw := 1
    minBwForZoom := 20000000 }

/-- Pan state whose window width (1500000) exceeds the whole configured
range [0, 1000000]. -/
def c7State : PanDialog :=
  { basePan with
    rangeStartSpin := ⟨0, 1000000, 0⟩
    rangeEndSpin := ⟨0, 1000000, 1000000⟩
    currBw := 1500000 }

/-- The specification's pan-clamp example: range [0, 1000000], window width
200000. -/
def c7ExampleState : PanDialog :=
  { basePan with
    rangeStartSpin := ⟨0, 1000000, 0⟩
    rangeEndSpin := ⟨0, 1000000, 1000000⟩
    currBw := 200000 }

/-- The specification's export example frame:
`freqStart = 100000000`, `freqEnd = 200000000`,
`samples = [-90.123456, -85.5]`. -/
def savedExample : SavedSpectrum :=
  ⟨100000000, 200000000, [mkRat (-90123456) 1000000, mkRat (-171) 2]⟩

/-- The flat sample block of the export: every sample rendered at float
precision followed by one space. -/
def psdBlock : List ℚ → String
  | [] => ""
  | p :: rest => fmtFloat6 p ++ " " ++ psdBlock rest

/-! ## Claims -/

/-- Claim C2: with the lag filter enabled, the first frame of a session is
accepted unconditionally and initializes the minimum observed delay; every
later frame first tightens the minimum to its observed delay when smaller
and is accepted iff the excess over the minimum is at most the configured
limit.  On observed delays [100ms, 80ms, 150ms, 90ms] with a 50ms limit the
minimum is 80ms after frame 2, frame 3 is dropped, frame 4 accepted. -/
theorem C2_staleness_filter (cfg : GuiTTLConfig) (st : RtDeltaState)
    (nowUs : Int) (msg : PSDMessage) (hen : cfg.enableMsgTTL = true) :
    (st.haveRtDelta = false →
      feedPSD cfg st nowUs msg =
        (⟨true, nowUs - msg.realTimeStampUs⟩,
         { sampleRateSet := some msg.sampleRate
           processRateSet := some msg.measuredSampleRate
           averagerFed := true, spectrumFed := true })) ∧
    (st.haveRtDelta = true →
      (feedPSD cfg st nowUs msg).1
          = ⟨true, min st.rtDelta (nowUs - msg.realTimeStampUs)⟩ ∧
      ((feedPSD cfg st nowUs msg).2.spectrumFed = true ↔
        nowUs - msg.realTimeStampUs
          - min st.rtDelta (nowUs - msg.realTimeStampUs) ≤ maxDeltaUs cfg)) ∧
    (runFeed ⟨true, 50⟩ ⟨false, 0⟩ c2Frames
        = (⟨true, 80000⟩, [true, true, false, true]) ∧
     (runFeed ⟨true, 50⟩ ⟨false, 0⟩ (c2Frames.take 2)).1.rtDelta = 80000) := by
  refine ⟨?_, ?_, by decide⟩
  · intro hfirst
    simp [feedPSD, hen, hfirst]
  · intro hlater
    constructor
    · simp only [feedPSD, hen, hlater]
      split_ifs with h1 h2 <;> simp_all <;> omega
    · simp only [feedPSD, hen, hlater]
      split_ifs with h1 h2 <;> simp_all <;> omega

/-- Witness for C2 at a concrete configuration and first-frame state. -/
theorem C2_staleness_filter_witness :
    (true : Bool) = true ∧
    ((⟨false, 0⟩ : RtDeltaState).haveRtDelta = false →
      feedPSD ⟨true, 50⟩ ⟨false, 0⟩ 1000000 ⟨900000, 20000000, 19990000⟩ =
        (⟨true, 100000⟩,
         { sampleRateSet := some 20000000
           processRateSet := some 19990000
           averagerFed := true, spectrumFed := true })) :=
  ⟨rfl,
   (C2_staleness_filter ⟨true, 50⟩ ⟨false, 0⟩ 1000000
      ⟨900000, 20000000, 19990000⟩ rfl).1⟩

/-- Counterexample to claim C4 as stated: a dropped frame (excess 70 ms over
a 50 ms limit) updates only the nominal sample rate; the measured-rate
display update (`setProcessRate`) is suppressed, contradicting the claim
that the measured-vs-nominal rate is still updated. -/
theorem C4_counterexample :
    (feedPSD ⟨true, 50⟩ ⟨true, 80000⟩ 3000000 ⟨2850000, 20000000, 19990000⟩).2.spectrumFed
        = false ∧
    (feedPSD ⟨true, 50⟩ ⟨true, 80000⟩ 3000000 ⟨2850000, 20000000, 19990000⟩).2.sampleRateSet
        = some 20000000 ∧
    (feedPSD ⟨true, 50⟩ ⟨true, 80000⟩ 3000000 ⟨2850000, 20000000, 19990000⟩).2.processRateSet
        = none := by
  decide

/-- Claim C4 (amended): for every frame the staleness filter drops, only the
nominal sample-rate bookkeeping is updated from the frame's declared rate;
the measured-rate display update is suppressed along with the averager feed
and the display update, and the filter state is left unchanged. -/
theorem C4_dropped_frame_effects (cfg : GuiTTLConfig) (st : RtDeltaState)
    (nowUs : Int) (msg : PSDMessage) (hen : cfg.enableMsgTTL = true)
    (httl : 0 ≤ cfg.msgTTL)
    (hdrop : (feedPSD cfg st nowUs msg).2.spectrumFed = false) :
    (feedPSD cfg st nowUs msg).1 = st ∧
    (feedPSD cfg st nowUs msg).2.sampleRateSet = some msg.sampleRate ∧
    (feedPSD cfg st nowUs msg).2.processRateSet = none ∧
    (feedPSD cfg st nowUs msg).2.averagerFed = false := by
  have hmax : 0 ≤ maxDeltaUs cfg := by
    have h1 : 0 ≤ Int.tdiv cfg.msgTTL 1000 := Int.tdiv_nonneg httl (by norm_num)
    have h2 : 0 ≤ Int.tmod cfg.msgTTL 1000 := Int.tmod_nonneg 1000 httl
    unfold maxDeltaUs
    positivity
  obtain ⟨hv, rv⟩ := st
  cases hv with
  | false => simp [feedPSD, hen] at hdrop
  | true =>
    by_cases hgt : rv > nowUs - msg.realTimeStampUs
    · simp [feedPSD, hen, hgt] at hdrop
      omega
    · refine ⟨?_, ?_, ?_, ?_⟩ <;> simp_all [feedPSD, hen, hgt] <;> omega


/-- Claim C10: `getGain` returns 0 when no entry keyed
`"gain." + dev + "." + name` exists; after `setGain dev name v`, `getGain`
returns `v` and `hasGain` returns true. -/
theorem C10_gain_map_roundtrip (c : PanoramicDialogConfig)
    (dev name : String) (v : ℚ)
    (habsent : c.gains (gainKey dev name) = none) :
    c.getGain dev name = 0 ∧
    (c.setGain dev name v).getGain dev name = v ∧
    (c.setGain dev name v).hasGain dev name = true := by
  refine ⟨?_, ?_, ?_⟩ <;>
    simp [PanoramicDialogConfig.getGain, PanoramicDialogConfig.setGain,
      PanoramicDialogConfig.hasGain, habsent]

/-- Witness for C10 on the empty gain map, driver "rtlsdr", gain "LNA". -/
theorem C10_gain_map_roundtrip_witness :
    emptyGainConfig.gains (gainKey "rtlsdr" "LNA") = none ∧
    (emptyGainConfig.getGain "rtlsdr" "LNA" = 0 ∧
     (emptyGainConfig.setGain "rtlsdr" "LNA" 24).getGain "rtlsdr" "LNA" = 24 ∧
     (emptyGainConfig.setGain "rtlsdr" "LNA" 24).hasGain "rtlsdr" "LNA" = true) :=
  ⟨rfl, C10_gain_map_roundtrip emptyGainConfig "rtlsdr" "LNA" 24 rfl⟩

/-- Claim C5: for device bounds `lo ≤ hi` held by both range spin boxes (the
LNB-shifted device bounds installed by `setRanges`) and any requested range
`[a, b]`, after the range edit (`setValue` clamping on each spin followed by
`adjustRanges`, which swaps when inverted) the stored range satisfies
`lo ≤ min ≤ max ≤ hi`. -/
theorem C5_setRange_in_bounds (s : PanDialog) (lo hi a b : Int)
    (hs1 : s.rangeStartSpin.lo = lo) (hs2 : s.rangeStartSpin.hi = hi)
    (he1 : s.rangeEndSpin.lo = lo) (he2 : s.rangeEndSpin.hi = hi)
    (hlh : lo ≤ hi) :
    lo ≤ (s.setRange a b).rangeStartSpin.val ∧
    (s.setRange a b).rangeStartSpin.val ≤ (s.setRange a b).rangeEndSpin.val ∧
    (s.setRange a b).rangeEndSpin.val ≤ hi := by
  simp only [PanDialog.setRange, PanDialog.adjustRanges, SpinBox.setValue]
  split_ifs <;> simp_all <;> omega

/-- Witness for C5: bounds [24000000, 1766000000], inverted request. -/
theorem C5_setRange_in_bounds_witness :
    ((basePan.rangeStartSpin.lo = 0 ∧ basePan.rangeStartSpin.hi = 0) ∧
     (0 : Int) ≤ 0) ∧
    (0 ≤ (basePan.setRange 7 (-3)).rangeStartSpin.val ∧
     (basePan.setRange 7 (-3)).rangeStartSpin.val
        ≤ (basePan.setRange 7 (-3)).rangeEndSpin.val ∧
     (basePan.setRange 7 (-3)).rangeEndSpin.val ≤ 0) :=
  ⟨⟨⟨rfl, rfl⟩, le_refl 0⟩,
   C5_setRange_in_bounds basePan 0 0 7 (-3) rfl rfl rfl rfl (le_refl 0)⟩

/-- Claim C9: when a scan start is requested while the selected device is the
banned device, `onToggleScan` emits no start event, surfaces a user-facing
error box, and leaves the frequency-range state (range spins, full-range
flag, LNB offset) unchanged. -/
theorem C9_banned_device_refusal (s : PanDialog)
    (hchecked : s.scanButtonChecked = true)
    (hbanned : s.bannedDevice.length > 0)
    (hsel : s.selectedDeviceDesc = s.bannedDevice) :
    s.onToggleScan.2 =
      [PanEvent.errorBox "Panoramic spectrum error error"
        "Scan cannot start because the selected device is in use by the main window."] ∧
    PanEvent.startScan ∉ s.onToggleScan.2 ∧
    s.onToggleScan.1.rangeStartSpin = s.rangeStartSpin ∧
    s.onToggleScan.1.rangeEndSpin = s.rangeEndSpin ∧
    s.onToggleScan.1.fullRangeCheck = s.fullRangeCheck ∧
    s.onToggleScan.1.lnbValue = s.lnbValue := by
  refine ⟨?_, ?_, ?_, ?_, ?_, ?_⟩ <;>
    simp [PanDialog.onToggleScan, hchecked, hbanned, hsel]

/-- Witness for C9 at a concrete banned-device state. -/
theorem C9_banned_device_refusal_witness :
    (bannedScanState.scanButtonChecked = true ∧
     bannedScanState.bannedDevice.length > 0 ∧
     bannedScanState.selectedDeviceDesc = bannedScanState.bannedDevice) ∧
    (bannedScanState.onToggleScan.2 =
      [PanEvent.errorBox "Panoramic spectrum error error"
        "Scan cannot start because the selected device is in use by the main window."] ∧
     PanEvent.startScan ∉ bannedScanState.onToggleScan.2 ∧
     bannedScanState.onToggleScan.1.rangeStartSpin = bannedScanState.rangeStartSpin ∧
     bannedScanState.onToggleScan.1.rangeEndSpin = bannedScanState.rangeEndSpin ∧
     bannedScanState.onToggleScan.1.fullRangeCheck = bannedScanState.fullRangeCheck ∧
     bannedScanState.onToggleScan.1.lnbValue = bannedScanState.lnbValue) :=
  ⟨⟨rfl, by decide, rfl⟩,
   C9_banned_device_refusal bannedScanState rfl (by decide) rfl⟩

/-- Structural power of two agrees with the monoid power. -/
theorem pow2_eq (k : Nat) : pow2 k = 2 ^ k := by
  induction k with
  | zero => rfl
  | succ k ih =>
    simp [pow2, ih, pow_succ]
    ring

/-- Value of a float with a negative exponent, as a division. -/
theorem val_neg_exp (m : Int) (k : Nat) :
    (FloatVal.mk m (-(k : Int))).val = (m : ℚ) / 2 ^ k := by
  unfold FloatVal.val
  rw [zpow_neg, zpow_natCast]
  ring

/-- The float comparison `fle` agrees with the exact rational values of its
operands. -/
theorem fle_iff (a b : FloatVal) : fle a b = true ↔ a.val ≤ b.val := by
  have h2 : (0:ℚ) < 2 := by norm_num
  have hcast : ∀ (m : Int) (k : Nat),
      (((m * (pow2 k : Int)) : Int) : ℚ) = (m : ℚ) * (2:ℚ) ^ (k : ℤ) := by
    intro m k
    push_cast [pow2_eq]
    rw [zpow_natCast]
  unfold fle FloatVal.val
  split_ifs with h
  · rw [decide_eq_true_eq]
    have he : (2:ℚ) ^ b.e
        = (2:ℚ) ^ (((b.e - a.e).toNat : Nat) : ℤ) * (2:ℚ) ^ a.e := by
      rw [← zpow_add₀ (ne_of_gt h2)]
      congr 1
      omega
    rw [he, ← mul_assoc, mul_le_mul_right (zpow_pos h2 a.e), ← hcast]
    exact Int.cast_le.symm
  · rw [decide_eq_true_eq]
    have he : (2:ℚ) ^ a.e
        = (2:ℚ) ^ (((a.e - b.e).toNat : Nat) : ℤ) * (2:ℚ) ^ b.e := by
      rw [← zpow_add₀ (ne_of_gt h2)]
      congr 1
      omega
    rw [he, ← mul_assoc, mul_le_mul_right (zpow_pos h2 b.e), ← hcast]
    exact Int.cast_le.symm

/-- The function `setWfRange` never touches the mode flag or the zoom-decision inputs. -/
theorem PanDialog.setWfRange_preserves (s : PanDialog) (a b : Int) :
    (s.setWfRange a b).fixedFreqMode = s.fixedFreqMode ∧
    (s.setWfRange a b).minBwForZoom = s.minBwForZoom ∧
    (s.setWfRange a b).relBwSliderValue = s.relBwSliderValue ∧
    (s.setWfRange a b).adjustingRange = s.adjustingRange := by
  simp only [PanDialog.setWfRange]
  split_ifs <;> simp

/-- In fixed-frequency mode `setWfRange` leaves `currBw` at `minBwForZoom`. -/
theorem PanDialog.setWfRange_fixed_currBw (s : PanDialog) (a b : Int)
    (h : s.fixedFreqMode = true) :
    (s.setWfRange a b).currBw = s.minBwForZoom := by
  simp only [PanDialog.setWfRange, h, if_true]
  split_ifs with h2 <;> simp_all

/-- In sweep mode, a `setWfRange` whose width equals `currBw` only
re-centers the waterfall: no reconfiguration happens. -/
theorem PanDialog.setWfRange_sweep_same_width (s : PanDialog) (a b : Int)
    (hm : s.fixedFreqMode = false) (hw : b - a = s.currBw) :
    s.setWfRange a b =
      { s with wf := { s.wf with centerFreq := Int.tdiv (b + a) 2 } } := by
  simp only [PanDialog.setWfRange]
  simp [hm, hw]

/-- In sweep mode, a `setWfRange` with a new width reconfigures the
waterfall: sample rate, zoom reset and `currBw` all change. -/
theorem PanDialog.setWfRange_sweep_new_width (s : PanDialog) (a b : Int)
    (hm : s.fixedFreqMode = false) (hw : b - a ≠ s.currBw) :
    (s.setWfRange a b).currBw = b - a ∧
    (s.setWfRange a b).wf.sampleRate = b - a ∧
    (s.setWfRange a b).wf.horizZoomResets = s.wf.horizZoomResets + 1 ∧
    (s.setWfRange a b).wf.centerFreq = Int.tdiv (b + a) 2 := by
  simp only [PanDialog.setWfRange]
  simp [hm, hw]

/-- Every non-reentrant `onNewZoomLevel` call emits exactly one signal. -/
theorem PanDialog.onNewZoomLevel_emits_one (s : PanDialog)
    (h : s.adjustingRange = false) : s.onNewZoomLevel.2.length = 1 := by
  simp [PanDialog.onNewZoomLevel, h]

/-- Every `onNewCenterFreq` call emits exactly one signal. -/
theorem PanDialog.onNewCenterFreq_emits_one (s : PanDialog) (freq : Int) :
    (s.onNewCenterFreq freq).2.length = 1 := by
  simp [PanDialog.onNewCenterFreq]

/-- Counterexample to claim C1 as stated: submitting the same acquisition
window twice in a row emits `detailChanged` twice, not once — re-emission of
an identical window is not suppressed. -/
theorem C1_counterexample :
    c1State.onNewZoomLevel.2 = [PanEvent.detailChanged 300000 700000 false] ∧
    c1State.onNewZoomLevel.1.onNewZoomLevel.2
        = [PanEvent.detailChanged 300000 700000 false] ∧
    (c1State.onNewZoomLevel.2 ++ c1State.onNewZoomLevel.1.onNewZoomLevel.2).length
        ≠ 1 := by
  decide

/-- Claim C1 (amended): every non-reentrant zoom submission and every pan
submission emits its own `detailChanged` event, identical window or not
(so the same window twice emits two events); the comparison with the last
width (`currBw`) gates only the internal waterfall reconfiguration of
`setWfRange`: in sweep mode a resubmission with unchanged width only
re-centers the waterfall, while a width change triggers the sample-rate
reconfiguration and zoom reset. -/
theorem C1_emission_and_width_gate (s : PanDialog) (a b freq : Int)
    (hguard : s.adjustingRange = false) (hsweep : s.fixedFreqMode = false) :
    s.onNewZoomLevel.2.length = 1 ∧
    (s.onNewCenterFreq freq).2.length = 1 ∧
    (b - a = s.currBw →
      s.setWfRange a b =
        { s with wf := { s.wf with centerFreq := Int.tdiv (b + a) 2 } }) ∧
    (b - a ≠ s.currBw →
      (s.setWfRange a b).currBw = b - a ∧
      (s.setWfRange a b).wf.sampleRate = b - a ∧
      (s.setWfRange a b).wf.horizZoomResets = s.wf.horizZoomResets + 1) :=
  ⟨PanDialog.onNewZoomLevel_emits_one s hguard,
   PanDialog.onNewCenterFreq_emits_one s freq,
   fun hw => PanDialog.setWfRange_sweep_same_width s a b hsweep hw,
   fun hw =>
     ⟨(PanDialog.setWfRange_sweep_new_width s a b hsweep hw).1,
      (PanDialog.setWfRange_sweep_new_width s a b hsweep hw).2.1,
      (PanDialog.setWfRange_sweep_new_width s a b hsweep hw).2.2.1⟩⟩

/-- Witness for the amended C1 at the concrete sweep state. -/
theorem C1_emission_and_width_gate_witness :
    (c1State.adjustingRange = false ∧ c1State.fixedFreqMode = false) ∧
    (c1State.onNewZoomLevel.2.length = 1 ∧
     (c1State.onNewCenterFreq 500000).2.length = 1 ∧
     ((400000 : Int) - 0 = c1State.currBw →
       c1State.setWfRange 0 400000 =
         { c1State with
           wf := { c1State.wf with centerFreq := Int.tdiv ((400000 : Int) + 0) 2 } }) ∧
     ((400000 : Int) - 0 ≠ c1State.currBw →
       (c1State.setWfRange 0 400000).currBw = 400000 - 0 ∧
       (c1State.setWfRange 0 400000).wf.sampleRate = 400000 - 0 ∧
       (c1State.setWfRange 0 400000).wf.horizZoomResets
          = c1State.wf.horizZoomResets + 1)) :=
  ⟨⟨rfl, rfl⟩, C1_emission_and_width_gate c1State 0 400000 500000 rfl rfl⟩

/-- Witness for the amended C4 at the dropped third frame of the
specification's example sequence. -/
theorem C4_dropped_frame_effects_witness :
    ((true : Bool) = true ∧ (0 : Int) ≤ 50 ∧
     (feedPSD ⟨true, 50⟩ ⟨true, 80000⟩ 3000000 ⟨2850000, 20000000, 19990000⟩).2.spectrumFed
        = false) ∧
    ((feedPSD ⟨true, 50⟩ ⟨true, 80000⟩ 3000000 ⟨2850000, 20000000, 19990000⟩).1
        = ⟨true, 80000⟩ ∧
     (feedPSD ⟨true, 50⟩ ⟨true, 80000⟩ 3000000 ⟨2850000, 20000000, 19990000⟩).2.sampleRateSet
        = some 20000000 ∧
     (feedPSD ⟨true, 50⟩ ⟨true, 80000⟩ 3000000 ⟨2850000, 20000000, 19990000⟩).2.processRateSet
        = none ∧
     (feedPSD ⟨true, 50⟩ ⟨true, 80000⟩ 3000000 ⟨2850000, 20000000, 19990000⟩).2.averagerFed
        = false) :=
  ⟨⟨rfl, by decide, by decide⟩,
   C4_dropped_frame_effects ⟨true, 50⟩ ⟨true, 80000⟩ 3000000
     ⟨2850000, 20000000, 19990000⟩ rfl (by decide) (by decide)⟩

/-- Counterexample to claim C3 as stated: entering fixed-frequency mode on a
zoom with gesture span 50000 and `minBwForZoom = 100000` emits the window
[499975000, 500025000], whose width 50000 is not `minBwForZoom`; the window
is derived with the gesture span, not `minBwForZoom`. -/
theorem C3_counterexample :
    c3State.onNewZoomLevel.2
        = [PanEvent.detailChanged 499975000 500025000 true] ∧
    (500025000 - 499975000 : Int) ≠ c3State.minBwForZoom ∧
    c3State.onNewZoomLevel.1.currBw = c3State.minBwForZoom := by
  decide

/-- Claim C3 (amended): when the zoom reconciler enters fixed-frequency mode
on a zoom change, the emitted window is re-derived as
`[center − span/2, center + span/2]` around the current tuned center
(`getCenterFreq()`, without the FFT offset of the zoom gesture) with the
gesture span retained, and only the waterfall's internal acquisition
bandwidth (`currBw`, pushed as its sample rate) is set to `minBwForZoom`. -/
theorem C3_fixed_entry_window (s : PanDialog)
    (hguard : s.adjustingRange = false)
    (hfixed : s.zoomFixedDecision (s.zoomClamped.hi - s.zoomClamped.lo) = true) :
    s.onNewZoomLevel.2 =
      [PanEvent.detailChanged (s.wf.centerFreq - Int.tdiv s.wf.spanFreq 2)
         (s.wf.centerFreq + Int.tdiv s.wf.spanFreq 2) true] ∧
    s.onNewZoomLevel.1.fixedFreqMode = true ∧
    s.onNewZoomLevel.1.currBw = s.minBwForZoom := by
  have hfix : fle
      (floatOfInt ((clampZoomWindow s.rangeStartSpin.val s.rangeEndSpin.val
        (s.wf.centerFreq + s.wf.fftCenterFreq - Int.tdiv s.wf.spanFreq 2)
        (s.wf.centerFreq + s.wf.fftCenterFreq + Int.tdiv s.wf.spanFreq 2)).hi -
        (clampZoomWindow s.rangeStartSpin.val s.rangeEndSpin.val
        (s.wf.centerFreq + s.wf.fftCenterFreq - Int.tdiv s.wf.spanFreq 2)
        (s.wf.centerFreq + s.wf.fftCenterFreq + Int.tdiv s.wf.spanFreq 2)).lo))
      (fmul (floatOfInt s.minBwForZoom)
        (fdiv (floatOfInt s.relBwSliderValue) (floatOfInt 100))) = true := by
    simpa [PanDialog.zoomFixedDecision, PanDialog.zoomThresholdF,
      PanDialog.relBwF, PanDialog.zoomClamped, PanDialog.zoomRawWindow,
      PanDialog.getMinFreq, PanDialog.getMaxFreq]
      using hfixed
  refine ⟨?_, ?_, ?_⟩ <;>
    simp [PanDialog.onNewZoomLevel, hguard, PanDialog.getMinFreq,
      PanDialog.getMaxFreq, PanDialog.zoomFixedDecision,
      PanDialog.zoomThresholdF, PanDialog.relBwF, PanDialog.setWfRange,
      hfix] <;>
    split_ifs <;> simp_all

/-- Witness for the amended C3 at the concrete fixed-entry state. -/
theorem C3_fixed_entry_window_witness :
    (c3State.adjustingRange = false ∧
     c3State.zoomFixedDecision (c3State.zoomClamped.hi - c3State.zoomClamped.lo)
        = true) ∧
    (c3State.onNewZoomLevel.2 =
      [PanEvent.detailChanged (c3State.wf.centerFreq - Int.tdiv c3State.wf.spanFreq 2)
         (c3State.wf.centerFreq + Int.tdiv c3State.wf.spanFreq 2) true] ∧
     c3State.onNewZoomLevel.1.fixedFreqMode = true ∧
     c3State.onNewZoomLevel.1.currBw = c3State.minBwForZoom) :=
  ⟨⟨rfl, by decide⟩, C3_fixed_entry_window c3State rfl (by decide)⟩

/-- Counterexample to claim C6 as stated: the comparison of line 1031 runs
in single precision, where the width 20000001 converts to `float` as
20000000.0f (round-to-nearest, ties-to-even).  With `minBwForZoom` =
20000000 (a standard 20 Msps bandwidth) and the slider at 100% the float
threshold is exactly 20000000.0f, so a clamped width one Hz above the
threshold still compares `<=` and the mode is FixedFrequency — refuting
"W ≤ threshold iff FixedFrequency; one Hz above yields Sweep". -/
theorem C6_counterexample :
    c6FloatState.zoomClamped.hi - c6FloatState.zoomClamped.lo
        = c6FloatState.minBwForZoom + 1 ∧
    c6FloatState.onNewZoomLevel.1.fixedFreqMode = true ∧
    ¬ (((c6FloatState.zoomClamped.hi - c6FloatState.zoomClamped.lo : Int) : ℚ)
        ≤ (c6FloatState.minBwForZoom : ℚ) * c6FloatState.getRelBw) := by
  refine ⟨by decide, by decide, ?_⟩
  have hcl : c6FloatState.zoomClamped = ⟨0, 20000001, true, true⟩ := by decide
  rw [hcl]
  norm_num [c6FloatState, basePan, PanDialog.getRelBw]

/-- Claim C6 (amended): after zoom reconciliation with clamped width `W`,
the mode is FixedFrequency iff the single-precision comparison of line 1031
holds — `float(W) ≤ float(minBwForZoom) × float(relBw)`; whenever the
converted width and the float-computed threshold are exact (in particular
for widths and thresholds below 2^24), this coincides with the exact
comparison `W ≤ minBwForZoom × relativeBandwidthFactor`, and then a width
exactly at the threshold yields FixedFrequency and one Hz above yields
Sweep. -/
theorem C6_mode_threshold_float (s : PanDialog)
    (hguard : s.adjustingRange = false) :
    (s.onNewZoomLevel.1.fixedFreqMode = true ↔
      fle (floatOfInt (s.zoomClamped.hi - s.zoomClamped.lo))
        s.zoomThresholdF = true) ∧
    ((floatOfInt (s.zoomClamped.hi - s.zoomClamped.lo)).val
        = ((s.zoomClamped.hi - s.zoomClamped.lo : Int) : ℚ) →
     s.zoomThresholdF.val = (s.minBwForZoom : ℚ) * s.getRelBw →
     (s.onNewZoomLevel.1.fixedFreqMode = true ↔
      ((s.zoomClamped.hi - s.zoomClamped.lo : Int) : ℚ)
        ≤ (s.minBwForZoom : ℚ) * s.getRelBw)) := by
  have hmode : s.onNewZoomLevel.1.fixedFreqMode
      = s.zoomFixedDecision (s.zoomClamped.hi - s.zoomClamped.lo) := by
    simp [PanDialog.onNewZoomLevel, hguard, PanDialog.zoomClamped,
      PanDialog.zoomRawWindow, PanDialog.getMinFreq, PanDialog.getMaxFreq,
      PanDialog.zoomFixedDecision, PanDialog.zoomThresholdF,
      PanDialog.relBwF, PanDialog.setWfRange]
    split_ifs <;> simp_all
  constructor
  · rw [hmode]
    exact Iff.rfl
  · intro h1 h2
    rw [hmode,
      show s.zoomFixedDecision (s.zoomClamped.hi - s.zoomClamped.lo)
        = fle (floatOfInt (s.zoomClamped.hi - s.zoomClamped.lo))
            s.zoomThresholdF from rfl,
      fle_iff, h1, h2]

/-- Witness for the amended C6 in the exact (sub-2^24) regime: with
threshold 50000 × 100% both float conversions are exact, the width exactly
at the threshold yields FixedFrequency and the width one Hz above yields
Sweep. -/
theorem C6_mode_threshold_float_witness :
    (c6EqState.adjustingRange = false ∧ c6AboveState.adjustingRange = false) ∧
    ((floatOfInt (c6EqState.zoomClamped.hi - c6EqState.zoomClamped.lo)).val
        = ((c6EqState.zoomClamped.hi - c6EqState.zoomClamped.lo : Int) : ℚ) ∧
     c6EqState.zoomThresholdF.val
        = (c6EqState.minBwForZoom : ℚ) * c6EqState.getRelBw ∧
     (floatOfInt (c6AboveState.zoomClamped.hi - c6AboveState.zoomClamped.lo)).val
        = ((c6AboveState.zoomClamped.hi - c6AboveState.zoomClamped.lo : Int) : ℚ) ∧
     c6AboveState.zoomThresholdF.val
        = (c6AboveState.minBwForZoom : ℚ) * c6AboveState.getRelBw) ∧
    c6EqState.onNewZoomLevel.1.fixedFreqMode = true ∧
    c6AboveState.onNewZoomLevel.1.fixedFreqMode = false := by
  have hclEq : c6EqState.zoomClamped = ⟨0, 50000, true, true⟩ := by decide
  have hclAb : c6AboveState.zoomClamped = ⟨0, 50001, true, true⟩ := by decide
  have hv1 : (FloatVal.mk 12800000 (-8)).val = (50000 : ℚ) := by
    rw [show ((-8 : Int)) = -((8 : Nat) : Int) by norm_num, val_neg_exp]
    norm_num
  have hv2 : (FloatVal.mk 12800256 (-8)).val = (50001 : ℚ) := by
    rw [show ((-8 : Int)) = -((8 : Nat) : Int) by norm_num, val_neg_exp]
    norm_num
  have hwEq : (floatOfInt (c6EqState.zoomClamped.hi - c6EqState.zoomClamped.lo)).val
      = ((c6EqState.zoomClamped.hi - c6EqState.zoomClamped.lo : Int) : ℚ) := by
    rw [show floatOfInt (c6EqState.zoomClamped.hi - c6EqState.zoomClamped.lo)
        = ⟨12800000, -8⟩ from by decide, hv1, hclEq]
    norm_num
  have hwAb : (floatOfInt (c6AboveState.zoomClamped.hi - c6AboveState.zoomClamped.lo)).val
      = ((c6AboveState.zoomClamped.hi - c6AboveState.zoomClamped.lo : Int) : ℚ) := by
    rw [show floatOfInt (c6AboveState.zoomClamped.hi - c6AboveState.zoomClamped.lo)
        = ⟨12800256, -8⟩ from by decide, hv2, hclAb]
    norm_num
  have htEqv : c6EqState.zoomThresholdF.val
      = (c6EqState.minBwForZoom : ℚ) * c6EqState.getRelBw := by
    rw [show c6EqState.zoomThresholdF = ⟨12800000, -8⟩ from by decide, hv1]
    norm_num [c6EqState, basePan, PanDialog.getRelBw]
  have htAbv : c6AboveState.zoomThresholdF.val
      = (c6AboveState.minBwForZoom : ℚ) * c6AboveState.getRelBw := by
    rw [show c6AboveState.zoomThresholdF = ⟨12800000, -8⟩ from by decide, hv1]
    norm_num [c6AboveState, basePan, PanDialog.getRelBw]
  refine ⟨⟨rfl, rfl⟩, ⟨hwEq, htEqv, hwAb, htAbv⟩, ?_, ?_⟩
  · exact ((C6_mode_threshold_float c6EqState rfl).2 hwEq htEqv).mpr (by
      rw [hclEq]
      norm_num [c6EqState, basePan, PanDialog.getRelBw])
  · have h := (C6_mode_threshold_float c6AboveState rfl).2 hwAb htAbv
    have hq : ¬ (((c6AboveState.zoomClamped.hi - c6AboveState.zoomClamped.lo : Int) : ℚ)
        ≤ (c6AboveState.minBwForZoom : ℚ) * c6AboveState.getRelBw) := by
      rw [hclAb]
      norm_num [c6AboveState, basePan, PanDialog.getRelBw]
    rcases Bool.eq_false_or_eq_true c6AboveState.onNewZoomLevel.1.fixedFreqMode with hb | hb
    · exact absurd (h.mp hb) hq
    · exact hb

/-- Counterexample to claim C7 as stated: with range [0, 1000000] and window
width 1500000 (wider than the whole range), panning to center 900000 emits
[-500000, 1000000] — the window is slid to the right bound preserving its
width and overshoots the left bound, instead of equalling the full range. -/
theorem C7_counterexample :
    (c7State.onNewCenterFreq 900000).2
        = [PanEvent.detailChanged (-500000) 1000000 false] ∧
    c7State.getMaxFreq - c7State.getMinFreq < c7State.currBw ∧
    (c7State.onNewCenterFreq 900000).2
        ≠ [PanEvent.detailChanged c7State.getMinFreq c7State.getMaxFreq false] ∧
    (-500000 : Int) < c7State.getMinFreq := by
  decide

/-- Claim C7 (amended): on a pan with the window width held fixed, if the
width fits in the range, a window crossing a bound slides back fully inside
the bounds preserving its width (the spec's example pans [0,1000000], width
200000, center 1050000 to [800000, 1000000]); if the width exceeds the whole
range, the emitted window equals the full range only when the requested
window covers both bounds — a request beyond a single bound slides to that
bound preserving its width and overshoots the opposite bound. -/
theorem C7_pan_slide (s : PanDialog) (freq : Int)
    (hlh : s.getMinFreq ≤ s.getMaxFreq) (hsp : 0 ≤ s.currBw)
    (heven : s.currBw % 2 = 0) :
    (s.currBw ≤ s.getMaxFreq - s.getMinFreq →
      ∃ mn mx, (s.onNewCenterFreq freq).2
          = [PanEvent.detailChanged mn mx s.fixedFreqMode] ∧
        s.getMinFreq ≤ mn ∧ mx ≤ s.getMaxFreq ∧ mx - mn = s.currBw) ∧
    (s.getMaxFreq - s.getMinFreq < s.currBw →
      freq - Int.tdiv s.currBw 2 ≤ s.getMinFreq →
      s.getMaxFreq ≤ freq + Int.tdiv s.currBw 2 →
      (s.onNewCenterFreq freq).2
        = [PanEvent.detailChanged s.getMinFreq s.getMaxFreq s.fixedFreqMode]) ∧
    (c7ExampleState.onNewCenterFreq 1050000).2
        = [PanEvent.detailChanged 800000 1000000 false] := by
  obtain ⟨d, hd⟩ : ∃ d, s.currBw = 2 * d := ⟨s.currBw / 2, by omega⟩
  have htd : Int.tdiv s.currBw 2 = d := by
    rw [Int.tdiv_eq_ediv hsp (by norm_num), hd]
    omega
  have hdnn : 0 ≤ d := by omega
  simp only [PanDialog.getMinFreq, PanDialog.getMaxFreq] at hlh
  refine ⟨?_, ?_, by decide⟩
  · intro hfit
    simp only [PanDialog.getMinFreq, PanDialog.getMaxFreq] at hfit
    rw [hd] at hfit
    simp only [PanDialog.onNewCenterFreq, PanDialog.getMinFreq,
      PanDialog.getMaxFreq, htd, ge_iff_le]
    simp only [hd]
    clear htd hd hsp heven
    by_cases hl : freq - d ≤ s.rangeStartSpin.val <;>
      by_cases hr : s.rangeEndSpin.val ≤ freq + d <;>
        simp [hl, hr] <;>
        refine ⟨_, _, ⟨rfl, rfl⟩, ?_, ?_, ?_⟩ <;> omega
  · intro hwide hleft hright
    simp only [PanDialog.getMinFreq, PanDialog.getMaxFreq] at hwide hleft hright
    rw [htd] at hleft hright
    rw [hd] at hwide
    simp only [PanDialog.onNewCenterFreq, PanDialog.getMinFreq,
      PanDialog.getMaxFreq, htd, ge_iff_le]
    simp only [hd]
    simp [hleft, hright]
/-- Witness for the amended C7 at the specification's pan-clamp example. -/
theorem C7_pan_slide_witness :
    (c7ExampleState.getMinFreq ≤ c7ExampleState.getMaxFreq ∧
     (0 : Int) ≤ c7ExampleState.currBw ∧ c7ExampleState.currBw % 2 = 0) ∧
    ((c7ExampleState.currBw
        ≤ c7ExampleState.getMaxFreq - c7ExampleState.getMinFreq →
      ∃ mn mx, (c7ExampleState.onNewCenterFreq 1050000).2
          = [PanEvent.detailChanged mn mx c7ExampleState.fixedFreqMode] ∧
        c7ExampleState.getMinFreq ≤ mn ∧ mx ≤ c7ExampleState.getMaxFreq ∧
        mx - mn = c7ExampleState.currBw) ∧
     (c7ExampleState.getMaxFreq - c7ExampleState.getMinFreq
        < c7ExampleState.currBw →
      1050000 - Int.tdiv c7ExampleState.currBw 2 ≤ c7ExampleState.getMinFreq →
      c7ExampleState.getMaxFreq ≤ 1050000 + Int.tdiv c7ExampleState.currBw 2 →
      (c7ExampleState.onNewCenterFreq 1050000).2
        = [PanEvent.detailChanged c7ExampleState.getMinFreq
            c7ExampleState.getMaxFreq c7ExampleState.fixedFreqMode]) ∧
     (c7ExampleState.onNewCenterFreq 1050000).2
        = [PanEvent.detailChanged 800000 1000000 false]) :=
  ⟨⟨by decide, by decide, by decide⟩,
   C7_pan_slide c7ExampleState 1050000 (by decide) (by decide) (by decide)⟩

/-- The sequential sample writes of `exportToFile` produce the flat sample
block. -/
theorem foldl_write_psdBlock (l : List ℚ) (f : OFStream) :
    (l.foldl (fun g p => g.write (fmtFloat6 p ++ " ")) f).contents
      = f.contents ++ psdBlock l := by
  induction l generalizing f with
  | nil => simp [psdBlock]
  | cons x xs ih =>
    rw [List.foldl_cons, ih]
    simp [OFStream.write, psdBlock, String.append_assoc]

/-- Counterexample to claim C8 as stated: in the specification's own export
example the sample -85.5 is printed as "-85.5", which carries 3 significant
decimal digits, not at least 6 — `setprecision(digits10) = 6` caps the
significant digits at 6 and suppresses trailing zeros. -/
theorem C8_counterexample :
    (savedExample.exportToFile true).2.contents =
      "%\n% Panoramic Spectrum file generated by SigDigger\n%\n\nfreqMin = 100000000;\nfreqMax = 200000000;\nPSD = [ -90.1235 -85.5 ];\n" ∧
    (savedExample.data.map fmtFloat6).get? 1 = some "-85.5" ∧
    sigDecimalDigits "-85.5" = 3 ∧
    ¬ (6 ≤ sigDecimalDigits "-85.5") := by
  exact ⟨by decide, by decide, by decide, by decide⟩

/-- Claim C8 (amended): `exportToFile` fails exactly when the destination
cannot be opened for writing, and on success the written text is exactly the
three comment lines, the `freqMin`/`freqMax` integer header lines, and the
bracketed PSD block whose samples are rendered at float precision (at most 6
significant decimal digits, trailing zeros suppressed), space-separated and
terminated by "];"; the stream is the only thing it touches. -/
theorem C8_export_format (sp : SavedSpectrum) (ok : Bool) :
    ((sp.exportToFile ok).1 = false ↔ ok = false) ∧
    (sp.exportToFile ok).2.contents =
      (if ok then
        "%\n" ++ "% Panoramic Spectrum file generated by SigDigger\n" ++
        "%\n\n" ++
        ("freqMin = " ++ toString sp.start ++ ";\n") ++
        ("freqMax = " ++ toString sp.end_ ++ ";\n") ++
        ("PSD = [ " ++ psdBlock sp.data ++ "];\n")
       else "") := by
  have contents_write : ∀ (f : OFStream) (str : String),
      (f.write str).contents = f.contents ++ str := fun _ _ => rfl
  cases ok with
  | false =>
    simp [SavedSpectrum.exportToFile]
  | true =>
    refine ⟨by simp [SavedSpectrum.exportToFile], ?_⟩
    simp only [SavedSpectrum.exportToFile, Bool.not_true, if_true, if_false,
      ite_true, ite_false, not_true_eq_false]
    simp only [foldl_write_psdBlock, contents_write]
    simp [String.append_assoc]
    have hm : (";\n" : String) ++ ("PSD = [ " ++ (psdBlock sp.data ++ "];\n"))
        = ";\nPSD = [ " ++ (psdBlock sp.data ++ "];\n") := by
      rw [← String.append_assoc]
      rfl
    rw [hm]

end SigDigger